import Mathlib

/-!
Verification development for the content-addressed file storage engine of the
`client-pix` photo/video gallery backend (`apps/python/services/storage_service.py`,
`apps/python/utils/cleanup_util.py`).

The embedding is shallow: byte streams are `List Nat` (each element a byte),
the filesystem is a finite association of path strings to file contents,
and each Python method is translated into a pure Lean function.  The SHA-256
digest used for image identity (`hashlib.sha256(...).hexdigest()`) is
implemented in full (FIPS 180-4) so that content identities are computed,
not postulated.  External libraries that decode or re-encode images (PIL)
are modelled as an explicit parameter record `ImageOps`, and the random
tokens produced by `uuid.uuid4().hex` are passed in as explicit arguments.
-/

set_option maxRecDepth 100000

namespace ClientPix

/-! ## Bytes and 32-bit words -/

abbrev Bytes := List Nat

namespace SHA256

/-- Reduce a natural number to a 32-bit word. -/
def wmod (n : Nat) : Nat := n % 4294967296

/-- The 32-bit rotate-right by `n`. -/
def rotr (n x : Nat) : Nat := wmod ((x >>> n) ||| (x <<< (32 - n)))

/-- The 32-bit bitwise complement. -/
def wnot (x : Nat) : Nat := Nat.xor x 4294967295

/-- FIPS 180-4 section 4.1.2, `Σ0`. -/
def bigSigma0 (x : Nat) : Nat := Nat.xor (rotr 2 x) (Nat.xor (rotr 13 x) (rotr 22 x))

/-- FIPS 180-4 section 4.1.2, `Σ1`. -/
def bigSigma1 (x : Nat) : Nat := Nat.xor (rotr 6 x) (Nat.xor (rotr 11 x) (rotr 25 x))

/-- FIPS 180-4 section 4.1.2, `σ0`. -/
def smallSigma0 (x : Nat) : Nat := Nat.xor (rotr 7 x) (Nat.xor (rotr 18 x) (wmod (x >>> 3)))

/-- FIPS 180-4 section 4.1.2, `σ1`. -/
def smallSigma1 (x : Nat) : Nat := Nat.xor (rotr 17 x) (Nat.xor (rotr 19 x) (wmod (x >>> 10)))

/-- The 64 round constants (first 32 bits of the fractional parts of the cube
roots of the first 64 primes), written in decimal. -/
def K : List Nat := [
  1116352408, 1899447441, 3049323471, 3921009573,
  961987163, 1508970993, 2453635748, 2870763221,
  3624381080, 310598401, 607225278, 1426881987,
  1925078388, 2162078206, 2614888103, 3248222580,
  3835390401, 4022224774, 264347078, 604807628,
  770255983, 1249150122, 1555081692, 1996064986,
  2554220882, 2821834349, 2952996808, 3210313671,
  3336571891, 3584528711, 113926993, 338241895,
  666307205, 773529912, 1294757372, 1396182291,
  1695183700, 1986661051, 2177026350, 2456956037,
  2730485921, 2820302411, 3259730800, 3345764771,
  3516065817, 3600352804, 4094571909, 275423344,
  430227734, 506948616, 659060556, 883997877,
  958139571, 1322822218, 1537002063, 1747873779,
  1955562222, 2024104815, 2227730452, 2361852424,
  2428436474, 2756734187, 3204031479, 3329325298]

/-- The eight word state of the compression function. -/
structure Hash8 where
  a : Nat
  b : Nat
  c : Nat
  d : Nat
  e : Nat
  f : Nat
  g : Nat
  h : Nat
deriving DecidableEq, Repr

/-- Initial hash value (first 32 bits of the fractional parts of the square
roots of the first 8 primes), written in decimal. -/
def H0 : Hash8 :=
  ⟨1779033703, 3144134277, 1013904242, 2773480762,
   1359893119, 2600822924, 528734635, 1541459225⟩

/-- The `k` big-endian bytes of `n`. -/
def toBytesBE : Nat → Nat → Bytes
  | 0, _ => []
  | k + 1, n => toBytesBE k (n / 256) ++ [n % 256]

/-- Group a byte list into big-endian 32-bit words (trailing remainder dropped;
padded input is always a multiple of 4 bytes). -/
def toWords : Bytes → List Nat
  | b0 :: b1 :: b2 :: b3 :: rest => (((b0 * 256 + b1) * 256 + b2) * 256 + b3) :: toWords rest
  | _ => []

/-- FIPS 180-4 padding: `0x80`, zero bytes to 56 mod 64, then the bit length
as 8 big-endian bytes. -/
def padBytes (msg : Bytes) : Bytes :=
  msg ++ 0x80 :: List.replicate ((119 - msg.length % 64) % 64) 0 ++ toBytesBE 8 (msg.length * 8)

/-- Extend the 16 message words to 64.  `acc` holds the words produced so far,
newest first; `n` counts the remaining extension steps. -/
def extendWords (acc : List Nat) : Nat → List Nat
  | 0 => acc.reverse
  | n + 1 =>
    let w := wmod (smallSigma1 (acc.getD 1 0) + acc.getD 6 0 +
                   smallSigma0 (acc.getD 14 0) + acc.getD 15 0)
    extendWords (w :: acc) n

/-- One round of the compression function. -/
def round (s : Hash8) (wk : Nat × Nat) : Hash8 :=
  let t1 := wmod (s.h + bigSigma1 s.e + Nat.xor (s.e &&& s.f) (wnot s.e &&& s.g) +
                  wk.2 + wk.1)
  let t2 := wmod (bigSigma0 s.a + Nat.xor (s.a &&& s.b) (Nat.xor (s.a &&& s.c) (s.b &&& s.c)))
  ⟨wmod (t1 + t2), s.a, s.b, s.c, wmod (s.d + t1), s.e, s.f, s.g⟩

/-- Compress one 64-byte block into the running hash. -/
def compressBlock (h : Hash8) (block : Bytes) : Hash8 :=
  let w16 := toWords block
  let w := extendWords w16.reverse 48
  let s := (w.zip K).foldl round h
  ⟨wmod (h.a + s.a), wmod (h.b + s.b), wmod (h.c + s.c), wmod (h.d + s.d),
   wmod (h.e + s.e), wmod (h.f + s.f), wmod (h.g + s.g), wmod (h.h + s.h)⟩

/-- Process the padded message 64 bytes at a time.  The fuel argument bounds
the number of blocks; `pad.length` always suffices. -/
def processFuel (h : Hash8) : Nat → Bytes → Hash8
  | 0, _ => h
  | _, [] => h
  | fuel + 1, l => processFuel (compressBlock h (l.take 64)) fuel (l.drop 64)

/-- The SHA-256 digest of a byte list, as 32 bytes. -/
def digestBytes (msg : Bytes) : Bytes :=
  let pad := padBytes msg
  let hh := processFuel H0 pad.length pad
  toBytesBE 4 hh.a ++ toBytesBE 4 hh.b ++ toBytesBE 4 hh.c ++ toBytesBE 4 hh.d ++
  toBytesBE 4 hh.e ++ toBytesBE 4 hh.f ++ toBytesBE 4 hh.g ++ toBytesBE 4 hh.h

end SHA256

/-! ## Lowercase hex rendering (`hexdigest`) -/

/-- The lowercase hex character for a nibble. -/
def hexChar (n : Nat) : Char :=
  if n < 10 then Char.ofNat (48 + n) else Char.ofNat (87 + n)

/-- Render a byte list as lowercase hex characters, two per byte. -/
def bytesToHexChars : Bytes → List Char
  | [] => []
  | b :: rest => hexChar (b / 16 % 16) :: hexChar (b % 16) :: bytesToHexChars rest

/-- Embeds `hashlib.sha256(msg).hexdigest()`: the 64-character lowercase hex digest. -/
def sha256hex (msg : Bytes) : String := String.mk (bytesToHexChars (SHA256.digestBytes msg))

/-! ## Filesystem model

A filesystem is a finite association of absolute path strings to file
contents.  `write` models creating/overwriting a file, `unlink` models
`Path.unlink`, and `fileExists` models `Path.exists()`.  Directories are not
modelled separately: `mkdir(parents=True, exist_ok=True)` always succeeds and
only affects which directories exist, which no claim observes. -/

structure FS where
  files : List (String × Bytes)
deriving DecidableEq

/-- The contents at a path, if a file exists there. -/
def FS.read (fs : FS) (p : String) : Option Bytes := fs.files.lookup p

/-- Embeds `Path.exists()`. -/
def FS.fileExists (fs : FS) (p : String) : Bool := (fs.read p).isSome

/-- Remove every entry for key `p`. -/
def eraseKey (p : String) : List (String × Bytes) → List (String × Bytes)
  | [] => []
  | e :: rest => if e.1 = p then eraseKey p rest else e :: eraseKey p rest

/-- Create or overwrite the file at `p`. -/
def FS.write (fs : FS) (p : String) (b : Bytes) : FS :=
  ⟨(p, b) :: eraseKey p fs.files⟩

/-- Embeds `Path.unlink()`: remove the file at `p`. -/
def FS.unlink (fs : FS) (p : String) : FS :=
  ⟨eraseKey p fs.files⟩

/-- The empty filesystem. -/
def FS.empty : FS := ⟨[]⟩

/-! ## Storage service embedding (`storage_service.py`)

`root` stands for `self.upload_dir`.  PIL is modelled by `ImageOps`:
`decode` is `Image.open` (`none` when PIL raises, i.e. the bytes are not a
parseable image, in which case `img.size` is unavailable), and
`thumbBytes`/`webBytes` are the re-encoded WEBP outputs that
`_generate_thumbnails_sync` saves. -/

/-- Lowercase an ASCII character, as Python's `str.lower()` does on the
ASCII extensions this service handles. -/
def lowerChar (c : Char) : Char :=
  if 65 ≤ c.toNat ∧ c.toNat ≤ 90 then Char.ofNat (c.toNat + 32) else c

/-- Embeds `str.lower()` (on the ASCII file extensions the service sees). -/
def toLowerStr (s : String) : String := ⟨s.data.map lowerChar⟩

/-- External image library (PIL) behaviour, as observed by the service. -/
structure ImageOps where
  decode : Bytes → Option (Nat × Nat)
  thumbBytes : Bytes → Bytes
  webBytes : Bytes → Bytes

def VARIANT_ORIGINAL : String := "originals"
def VARIANT_THUMBNAIL : String := "thumbnails"
def VARIANT_WEB : String := "web"

/-- Embeds `StorageService.IMAGE_MIME_TYPES`. -/
def IMAGE_MIME_TYPES : List (String × String) := [
  (".jpg", "image/jpeg"),
  (".jpeg", "image/jpeg"),
  (".png", "image/png"),
  (".gif", "image/gif"),
  (".webp", "image/webp"),
  (".heic", "image/heic"),
  (".heif", "image/heif"),
  (".tiff", "image/tiff"),
  (".tif", "image/tiff"),
  (".bmp", "image/bmp"),
  (".raw", "image/raw"),
  (".cr2", "image/x-canon-cr2"),
  (".cr3", "image/x-canon-cr3"),
  (".nef", "image/x-nikon-nef"),
  (".arw", "image/x-sony-arw")]

/-- Embeds `StorageService.VIDEO_MIME_TYPES`. -/
def VIDEO_MIME_TYPES : List (String × String) := [
  (".mp4", "video/mp4"),
  (".mov", "video/quicktime"),
  (".avi", "video/x-msvideo"),
  (".mkv", "video/x-matroska"),
  (".webm", "video/webm"),
  (".m4v", "video/x-m4v"),
  (".wmv", "video/x-ms-wmv"),
  (".flv", "video/x-flv"),
  (".mpeg", "video/mpeg"),
  (".mpg", "video/mpeg"),
  (".3gp", "video/3gpp"),
  (".mts", "video/mp2t"),
  (".m2ts", "video/mp2t")]

/-- Embeds `StorageService.is_video`. -/
def is_video (extension : String) : Bool :=
  (VIDEO_MIME_TYPES.lookup (toLowerStr extension)).isSome

/-- Embeds `StorageService.is_image`. -/
def is_image (extension : String) : Bool :=
  (IMAGE_MIME_TYPES.lookup (toLowerStr extension)).isSome

/-- Embeds `StorageService._get_storage_path`: two-level directory sharding,
`<root>/<variant>/<file_id[:2]>/<file_id[2:4]>/<file_id><extension>`.
The path is grouped as `root ++ tail` to ease reasoning about distinctness. -/
def get_storage_path (root file_id variant extension : String) : String :=
  root ++ ("/" ++ (variant ++ ("/" ++ (file_id.take 2 ++ ("/" ++ ((file_id.drop 2).take 2 ++
    ("/" ++ (file_id ++ extension))))))))

/-- Embeds `StorageService._get_video_path`: `<root>/videos/<file_id><extension>`,
unsharded. -/
def get_video_path (root file_id extension : String) : String :=
  root ++ ("/videos/" ++ (file_id ++ extension))

/-- Embeds `StorageService._get_relative_path` (stored in the database). -/
def get_relative_path (file_id variant extension : String) : String :=
  variant ++ "/" ++ file_id.take 2 ++ "/" ++ (file_id.drop 2).take 2 ++ "/" ++ file_id ++ extension

/-- Embeds `StorageService._get_relative_video_path`. -/
def get_relative_video_path (file_id extension : String) : String :=
  "videos/" ++ file_id ++ extension

/-- Embeds `StorageService.get_mime_type`. -/
def get_mime_type (extension : String) : String :=
  match IMAGE_MIME_TYPES.lookup (toLowerStr extension) with
  | some m => m
  | none =>
    match VIDEO_MIME_TYPES.lookup (toLowerStr extension) with
    | some m => m
    | none => "application/octet-stream"

/-- The uniquely named temp file used while streaming an image:
`self.upload_dir / f"temp_{uuid.uuid4().hex}{extension}"`. -/
def temp_path (root tempToken extension : String) : String :=
  root ++ ("/temp_" ++ (tempToken ++ extension))

/-- The result dataclass `StoredFile`.  `width`/`height` are `none` for
videos, mirroring `int | None`. -/
structure StoredFile where
  file_id : String
  storage_path : String
  file_extension : String
  mime_type : String
  file_size : Nat
  width : Option Nat
  height : Option Nat
  is_duplicate : Bool
  is_video : Bool
deriving DecidableEq

/-- Embeds `StorageService.get_image_dimensions`: `Image.open` on the stored file;
any failure (missing file or undecodable bytes) yields `(0, 0)`. -/
def get_image_dimensions (ops : ImageOps) (fs : FS) (p : String) : Nat × Nat :=
  match fs.read p with
  | none => (0, 0)
  | some bytes =>
    match ops.decode bytes with
    | none => (0, 0)
    | some wh => wh

/-- Embeds `StorageService._generate_thumbnails_sync`: open the original, derive the
thumbnail and web variants and save both as `.webp`; every failure (missing
file, undecodable bytes) is swallowed, leaving the filesystem unchanged. -/
def generate_thumbnails_sync (ops : ImageOps) (root : String) (fs : FS)
    (original_path file_id : String) : FS :=
  match fs.read original_path with
  | none => fs
  | some bytes =>
    match ops.decode bytes with
    | none => fs
    | some _ =>
      let thumbPath := get_storage_path root file_id VARIANT_THUMBNAIL (".webp")
      let webPath := get_storage_path root file_id VARIANT_WEB (".webp")
      (fs.write thumbPath (ops.thumbBytes bytes)).write webPath (ops.webBytes bytes)

/-- Embeds `StorageService._store_video_streaming`: stream directly to the final
unsharded location under `videos/`; `uuidHex` models `uuid.uuid4().hex`. -/
def store_video_streaming (root uuidHex : String) (bytes : Bytes) (extension : String)
    (fs : FS) : StoredFile × FS :=
  let storagePath := get_video_path root uuidHex extension
  ({ file_id := uuidHex,
     storage_path := get_relative_video_path uuidHex extension,
     file_extension := extension,
     mime_type := get_mime_type extension,
     file_size := bytes.length,
     width := none,
     height := none,
     is_duplicate := false,
     is_video := true }, fs.write storagePath bytes)

/-- An injected IO failure inside `_store_image_streaming`, naming the
operation that raises.  `tempWrite k` is a disk error while streaming to the
temp file after `k` bytes were written; `dupUnlink` is a failure of
`temp_path.unlink()` in the duplicate branch; `renameFail` is a failure of
`mkdir`/`rename` when moving the temp file into place.  (Errors inside
`_generate_thumbnails_sync` and `get_image_dimensions` are swallowed there
and never reach the handler.) -/
inductive Fault
  | tempWrite (written : Nat)
  | dupUnlink
  | renameFail
deriving DecidableEq

/-- The `except` handler of `_store_image_streaming`:
`if temp_path.exists(): temp_path.unlink()`. -/
def cleanup_temp (fs : FS) (tempPath : String) : FS :=
  if fs.fileExists tempPath then fs.unlink tempPath else fs

/-- Embeds `StorageService._store_image_streaming`: stream to a uniquely named temp
file while hashing, dedupe on the SHA-256 identity, rename into the sharded
original path or discard the temp, derive variants, then read dimensions.
`tempToken` models `uuid.uuid4().hex`; `fault` injects at most one IO error,
whose effect is the `except` branch: clean up the temp file and re-raise
(modelled as `Except.error` carrying the resulting filesystem). -/
def store_image_streaming (ops : ImageOps) (root tempToken : String)
    (fault : Option Fault) (bytes : Bytes) (extension : String) (fs : FS) :
    Except FS (StoredFile × FS) :=
  let tempPath := temp_path root tempToken extension
  match fault with
  | some (.tempWrite k) => .error (cleanup_temp (fs.write tempPath (bytes.take k)) tempPath)
  | _ =>
    let fs1 := fs.write tempPath bytes
    let file_id := sha256hex bytes
    let storagePath := get_storage_path root file_id VARIANT_ORIGINAL extension
    let isDup := fs1.fileExists storagePath
    let mkResult := fun (fs' : FS) =>
      let wh := get_image_dimensions ops fs' storagePath
      ({ file_id := file_id,
         storage_path := get_relative_path file_id VARIANT_ORIGINAL extension,
         file_extension := extension,
         mime_type := get_mime_type extension,
         file_size := bytes.length,
         width := some wh.1,
         height := some wh.2,
         is_duplicate := isDup,
         is_video := false }, fs')
    if isDup then
      match fault with
      | some .dupUnlink => .error (cleanup_temp fs1 tempPath)
      | _ =>
        let fs2 := fs1.unlink tempPath
        let thumbPath := get_storage_path root file_id VARIANT_THUMBNAIL (".webp")
        let webPath := get_storage_path root file_id VARIANT_WEB (".webp")
        let fs3 :=
          if !fs2.fileExists thumbPath || !fs2.fileExists webPath then
            generate_thumbnails_sync ops root fs2 storagePath file_id
          else fs2
        .ok (mkResult fs3)
    else
      match fault with
      | some .renameFail => .error (cleanup_temp fs1 tempPath)
      | _ =>
        let fs2 := (fs1.unlink tempPath).write storagePath bytes
        let fs3 := generate_thumbnails_sync ops root fs2 storagePath file_id
        .ok (mkResult fs3)

/-- Extension normalization at the top of `store_file_streaming`:
`Path(original_filename).suffix.lower()`, with `.bin` substituted when the
filename has no suffix. -/
def normalize_ext (suffix : String) : String :=
  let extension := toLowerStr suffix
  if extension = ("") then (".bin") else extension

/-- Embeds `StorageService.store_file_streaming`: normalize the extension from the
filename suffix (lowercase, `.bin` when empty) and dispatch on the video
table.  `suffix` is `Path(original_filename).suffix`. -/
def store_file_streaming (ops : ImageOps) (root tempToken : String)
    (fault : Option Fault) (bytes : Bytes) (suffix : String) (fs : FS) :
    Except FS (StoredFile × FS) :=
  let extension := normalize_ext suffix
  if is_video extension then
    .ok (store_video_streaming root tempToken bytes extension fs)
  else
    store_image_streaming ops root tempToken fault bytes extension fs

/-- Embeds `StorageService.get_file_path`. -/
def get_file_path (root file_id extension variant : String) (isVideo : Bool) : String :=
  if isVideo then get_video_path root file_id extension
  else
    let ext := if variant = VARIANT_THUMBNAIL ∨ variant = VARIANT_WEB then (".webp") else extension
    get_storage_path root file_id variant ext

/-- Embeds `StorageService.regenerate_thumbnails`: `false` when the original is
missing, otherwise regenerate and return `true` (derivation failures are
swallowed inside `_generate_thumbnails_sync`). -/
def regenerate_thumbnails (ops : ImageOps) (root : String) (fs : FS)
    (file_id extension : String) : Bool × FS :=
  let originalPath := get_storage_path root file_id VARIANT_ORIGINAL extension
  if fs.fileExists originalPath then
    (true, generate_thumbnails_sync ops root fs originalPath file_id)
  else
    (false, fs)

/-- One `if path.exists(): path.unlink()` step of `delete_file`.  `faultOn`
injects filesystem errors: when `unlink` on an existing path raises, the
exception propagates (there is no try/except in `delete_file`), carrying the
unchanged filesystem. -/
def unlink_variant (faultOn : String → Bool) (fs : FS) (p : String) : Except FS FS :=
  if fs.fileExists p then
    if faultOn p then .error fs else .ok (fs.unlink p)
  else .ok fs

/-- Embeds `StorageService.delete_file`: for videos, remove the video file and
return; for images, remove the original (with its own extension) and the
thumbnail and web variants (always `.webp`), in that order. -/
def delete_file (root : String) (faultOn : String → Bool) (fs : FS)
    (file_id extension : String) (isVideo : Bool) : Except FS FS :=
  if isVideo then
    unlink_variant faultOn fs (get_video_path root file_id extension)
  else do
    let fs1 ← unlink_variant faultOn fs (get_storage_path root file_id VARIANT_ORIGINAL extension)
    let fs2 ← unlink_variant faultOn fs1 (get_storage_path root file_id VARIANT_THUMBNAIL (".webp"))
    unlink_variant faultOn fs2 (get_storage_path root file_id VARIANT_WEB (".webp"))

/-! ## Cleanup sweeper embedding (`cleanup_util.py`)

The sweeper acts only on file ages and sizes, so its state is modelled
separately from the content store: a file (or chunked-upload session
directory) is a basename together with its modification time and its size
(for directories, the aggregate size `rmtree` reclaims).  `tmpFiles` are the
entries of `/tmp`, `uploadFiles` the entries directly under the upload root,
and `chunkDirs` the session directories under `uploads/chunks/`. -/

structure SweepFile where
  path : String
  mtime : Nat
  size : Nat
deriving DecidableEq

structure SweepState where
  tmpFiles : List SweepFile
  uploadFiles : List SweepFile
  chunkDirs : List SweepFile
deriving DecidableEq

/-- One glob-and-delete pass: remove every entry matching `pred` whose mtime
is strictly below `cutoff`, returning the surviving entries together with the
count and byte total of what was removed.  An entry already removed by an
earlier pass is simply no longer in the list, mirroring the swallowed
`FileNotFoundError` in the source. -/
def sweep_pass (pred : SweepFile → Bool) (cutoff : Nat) :
    List SweepFile → List SweepFile × Nat × Nat
  | [] => ([], 0, 0)
  | f :: rest =>
    let r := sweep_pass pred cutoff rest
    if pred f && decide (f.mtime < cutoff) then (r.1, r.2.1 + 1, r.2.2 + f.size)
    else (f :: r.1, r.2.1, r.2.2)

/-- Embeds `cleanup_old_temp_files`: the two `/tmp` zip globs (the second
pattern, `tmp*.zip`, runs over what the first left behind), the
`temp_*` glob in the upload root, and the 24-hour chunked-upload session
sweep.  `now` is `time.time()`; the cutoffs are `now - 3600` and
`now - 86400`. -/
def cleanup_old_temp_files (now : Nat) (st : SweepState) : SweepState × Nat × Nat :=
  let oneHourAgo := now - 3600
  let oneDayAgo := now - 86400
  let r1 := sweep_pass (fun f => f.path.endsWith (".zip")) oneHourAgo st.tmpFiles
  let r2 := sweep_pass (fun f => f.path.startsWith ("tmp") && f.path.endsWith (".zip"))
    oneHourAgo r1.1
  let r3 := sweep_pass (fun f => f.path.startsWith ("temp_")) oneHourAgo st.uploadFiles
  let r4 := sweep_pass (fun _ => true) oneDayAgo st.chunkDirs
  (⟨r2.1, r3.1, r4.1⟩,
   r1.2.1 + r2.2.1 + r3.2.1 + r4.2.1,
   r1.2.2 + r2.2.2 + r3.2.2 + r4.2.2)

/-! ## Filesystem lemmas -/

theorem lookup_cons_bytes (k q : String) (v : Bytes) (l : List (String × Bytes)) :
    ((k, v) :: l).lookup q = if q = k then some v else l.lookup q := by
  by_cases h : q = k
  · subst h; simp [List.lookup]
  · have h2 : (q == k) = false := by simpa using h
    simp [List.lookup, h2, h]

theorem lookup_eraseKey (p q : String) (l : List (String × Bytes)) :
    (eraseKey p l).lookup q = if q = p then none else l.lookup q := by
  induction l with
  | nil => by_cases h : q = p <;> simp [eraseKey, h]
  | cons e rest ih =>
    obtain ⟨k, v⟩ := e
    by_cases hkp : k = p
    · rw [eraseKey]
      simp only [hkp, if_true, ih]
      subst hkp
      by_cases hq : q = k <;> simp [hq, lookup_cons_bytes]
    · rw [eraseKey]
      simp only [hkp, if_false]
      rw [lookup_cons_bytes, lookup_cons_bytes, ih]
      by_cases hq : q = k
      · subst hq; simp [hkp]
      · simp [hq]

theorem FS.read_write (fs : FS) (p q : String) (b : Bytes) :
    (fs.write p b).read q = if q = p then some b else fs.read q := by
  unfold FS.read FS.write
  rw [lookup_cons_bytes, lookup_eraseKey]
  by_cases h : q = p <;> simp [h]

theorem FS.read_unlink (fs : FS) (p q : String) :
    (fs.unlink p).read q = if q = p then none else fs.read q := by
  unfold FS.read FS.unlink
  rw [lookup_eraseKey]

theorem FS.fileExists_write (fs : FS) (p q : String) (b : Bytes) :
    (fs.write p b).fileExists q = if q = p then true else fs.fileExists q := by
  by_cases h : q = p <;> simp [FS.fileExists, FS.read_write, h]

theorem FS.fileExists_unlink (fs : FS) (p q : String) :
    (fs.unlink p).fileExists q = if q = p then false else fs.fileExists q := by
  by_cases h : q = p <;> simp [FS.fileExists, FS.read_unlink, h]

/-! ## Path structure lemmas -/

theorem append_left_ne (r : String) {s t : String} (h : s.data ≠ t.data) :
    r ++ s ≠ r ++ t := by
  intro hEq
  apply h
  have h3 := congrArg String.data hEq
  simp only [String.data_append] at h3
  exact List.append_cancel_left h3

/-- The temp file never collides with a sharded variant path under the same
root: the tails diverge within the first characters after the root. -/
theorem temp_path_ne_storage (root tok ext id ext2 v : String)
    (hv : v = VARIANT_ORIGINAL ∨ v = VARIANT_THUMBNAIL ∨ v = VARIANT_WEB) :
    temp_path root tok ext ≠ get_storage_path root id v ext2 := by
  unfold temp_path get_storage_path
  apply append_left_ne
  rcases hv with h | h | h <;> subst h <;>
    simp [VARIANT_ORIGINAL, VARIANT_THUMBNAIL, VARIANT_WEB, String.data_append]

theorem storage_orig_ne_thumb (root id1 e1 id2 e2 : String) :
    get_storage_path root id1 VARIANT_ORIGINAL e1 ≠
      get_storage_path root id2 VARIANT_THUMBNAIL e2 := by
  unfold get_storage_path
  apply append_left_ne
  simp [VARIANT_ORIGINAL, VARIANT_THUMBNAIL, String.data_append]

theorem storage_orig_ne_web (root id1 e1 id2 e2 : String) :
    get_storage_path root id1 VARIANT_ORIGINAL e1 ≠
      get_storage_path root id2 VARIANT_WEB e2 := by
  unfold get_storage_path
  apply append_left_ne
  simp [VARIANT_ORIGINAL, VARIANT_WEB, String.data_append]

theorem storage_thumb_ne_web (root id1 e1 id2 e2 : String) :
    get_storage_path root id1 VARIANT_THUMBNAIL e1 ≠
      get_storage_path root id2 VARIANT_WEB e2 := by
  unfold get_storage_path
  apply append_left_ne
  simp [VARIANT_THUMBNAIL, VARIANT_WEB, String.data_append]

/-- Distinct video tokens give distinct unsharded video paths. -/
theorem get_video_path_inj (root t1 t2 e : String)
    (h : get_video_path root t1 e = get_video_path root t2 e) : t1 = t2 := by
  unfold get_video_path at h
  have h3 := congrArg String.data h
  simp [String.data_append] at h3
  exact String.ext h3

/-! ## Hex digest lemmas -/

/-- Membership in the lowercase hex alphabet. -/
def isLowerHexChar (c : Char) : Bool := ("0123456789abcdef").data.contains c

theorem hexChar_isLowerHex (n : Nat) (h : n < 16) : isLowerHexChar (hexChar n) = true := by
  have key : ∀ m : Fin 16, isLowerHexChar (hexChar m.1) = true := by decide
  exact key ⟨n, h⟩

theorem bytesToHexChars_lower (l : Bytes) :
    ∀ c ∈ bytesToHexChars l, isLowerHexChar c = true := by
  induction l with
  | nil => simp [bytesToHexChars]
  | cons b rest ih =>
    intro c hc
    simp only [bytesToHexChars, List.mem_cons] at hc
    rcases hc with h | h | h
    · subst h; exact hexChar_isLowerHex _ (Nat.mod_lt _ (by omega))
    · subst h; exact hexChar_isLowerHex _ (Nat.mod_lt _ (by omega))
    · exact ih c h

theorem bytesToHexChars_length (l : Bytes) :
    (bytesToHexChars l).length = 2 * l.length := by
  induction l with
  | nil => rfl
  | cons b rest ih => simp [bytesToHexChars, ih]; omega

theorem toBytesBE_length (k : Nat) : ∀ n, (SHA256.toBytesBE k n).length = k := by
  induction k with
  | zero => intro n; rfl
  | succ k ih => intro n; simp [SHA256.toBytesBE, ih]

theorem digestBytes_length (msg : Bytes) : (SHA256.digestBytes msg).length = 32 := by
  unfold SHA256.digestBytes
  simp [toBytesBE_length]

theorem sha256hex_length (msg : Bytes) : (sha256hex msg).length = 64 := by
  have h1 : (sha256hex msg).length = (bytesToHexChars (SHA256.digestBytes msg)).length := rfl
  rw [h1, bytesToHexChars_length, digestBytes_length]

theorem sha256hex_lower (msg : Bytes) :
    ∀ c ∈ (sha256hex msg).data, isLowerHexChar c = true := by
  have h1 : (sha256hex msg).data = bytesToHexChars (SHA256.digestBytes msg) := rfl
  rw [h1]
  exact bytesToHexChars_lower _

/-! ## Thumbnail derivation lemmas -/

theorem gts_read_other (ops : ImageOps) (root : String) (fs : FS) (op fid q : String)
    (hq1 : q ≠ get_storage_path root fid VARIANT_THUMBNAIL (".webp"))
    (hq2 : q ≠ get_storage_path root fid VARIANT_WEB (".webp")) :
    (generate_thumbnails_sync ops root fs op fid).read q = fs.read q := by
  unfold generate_thumbnails_sync
  cases h1 : fs.read op with
  | none => rfl
  | some bytes =>
    cases h2 : ops.decode bytes with
    | none => simp [h2]
    | some wh => simp [h2, FS.read_write, hq1, hq2]

theorem gts_exists_mono (ops : ImageOps) (root : String) (fs : FS) (op fid q : String)
    (h : fs.fileExists q = true) :
    (generate_thumbnails_sync ops root fs op fid).fileExists q = true := by
  unfold generate_thumbnails_sync
  cases h1 : fs.read op with
  | none => exact h
  | some bytes =>
    cases h2 : ops.decode bytes with
    | none => simpa [h2] using h
    | some wh =>
      simp only [h2, FS.fileExists_write]
      by_cases hw : q = get_storage_path root fid VARIANT_WEB (".webp") <;>
        by_cases ht : q = get_storage_path root fid VARIANT_THUMBNAIL (".webp") <;>
          simp [hw, ht, h]

/-! ## Sweeper lemmas -/

theorem sweep_pass_mem_subset (pred : SweepFile → Bool) (cutoff : Nat)
    (l : List SweepFile) (f : SweepFile) (h : f ∈ (sweep_pass pred cutoff l).1) :
    f ∈ l := by
  induction l with
  | nil => simp [sweep_pass] at h
  | cons g rest ih =>
    rw [sweep_pass] at h
    by_cases hg : (pred g && decide (g.mtime < cutoff)) = true
    · simp only [hg, if_true] at h
      exact List.mem_cons_of_mem _ (ih h)
    · have hg2 : (pred g && decide (g.mtime < cutoff)) = false := by simpa using hg
      simp only [hg2, Bool.false_eq_true, if_false, List.mem_cons] at h
      rcases h with rfl | h2
      · exact List.mem_cons_self _ _
      · exact List.mem_cons_of_mem _ (ih h2)

theorem sweep_pass_mem_fail (pred : SweepFile → Bool) (cutoff : Nat)
    (l : List SweepFile) (f : SweepFile) (h : f ∈ (sweep_pass pred cutoff l).1) :
    (pred f && decide (f.mtime < cutoff)) = false := by
  induction l with
  | nil => simp [sweep_pass] at h
  | cons g rest ih =>
    rw [sweep_pass] at h
    by_cases hg : (pred g && decide (g.mtime < cutoff)) = true
    · simp only [hg, if_true] at h
      exact ih h
    · have hg2 : (pred g && decide (g.mtime < cutoff)) = false := by simpa using hg
      simp only [hg2, Bool.false_eq_true, if_false, List.mem_cons] at h
      rcases h with rfl | h2
      · exact hg2
      · exact ih h2

theorem sweep_pass_stable (pred : SweepFile → Bool) (cutoff : Nat) (l : List SweepFile)
    (h : ∀ f ∈ l, (pred f && decide (f.mtime < cutoff)) = false) :
    sweep_pass pred cutoff l = (l, 0, 0) := by
  induction l with
  | nil => rfl
  | cons g rest ih =>
    have hg := h g (List.mem_cons_self _ _)
    rw [sweep_pass, ih (fun f hf => h f (List.mem_cons_of_mem _ hf))]
    simp [hg]

theorem sweep_pass_idem (pred : SweepFile → Bool) (cutoff : Nat) (l : List SweepFile) :
    sweep_pass pred cutoff (sweep_pass pred cutoff l).1 =
      ((sweep_pass pred cutoff l).1, 0, 0) :=
  sweep_pass_stable _ _ _ (fun _ hf => sweep_pass_mem_fail _ _ _ _ hf)

theorem sweep_pass_pass_stable (p q : SweepFile → Bool) (c : Nat) (l : List SweepFile) :
    sweep_pass p c (sweep_pass q c (sweep_pass p c l).1).1 =
      ((sweep_pass q c (sweep_pass p c l).1).1, 0, 0) :=
  sweep_pass_stable _ _ _ (fun _ hf =>
    sweep_pass_mem_fail _ _ _ _ (sweep_pass_mem_subset _ _ _ _ hf))

/-! ## Store/delete evaluation lemmas -/

theorem write_unlink_read (fs : FS) (p q : String) (b : Bytes) :
    ((fs.write p b).unlink p).read q = if q = p then none else fs.read q := by
  rw [FS.read_unlink]
  by_cases h : q = p <;> simp [h, FS.read_write]

theorem cleanup_write_props (fs : FS) (tempP : String) (b : Bytes) :
    (cleanup_temp (fs.write tempP b) tempP).fileExists tempP = false ∧
    ∀ p, (cleanup_temp (fs.write tempP b) tempP).fileExists p = true →
      fs.fileExists p = true := by
  have hex : (fs.write tempP b).fileExists tempP = true := by simp [FS.fileExists_write]
  unfold cleanup_temp
  rw [if_pos hex]
  constructor
  · simp [FS.fileExists_unlink]
  · intro p hp
    rw [FS.fileExists_unlink] at hp
    by_cases hpt : p = tempP
    · simp [hpt] at hp
    · rw [if_neg hpt, FS.fileExists_write, if_neg hpt] at hp
      exact hp

/-- Evaluation of `_store_image_streaming` in the fresh (non-duplicate)
branch, with no injected fault. -/
theorem store_image_nodup (ops : ImageOps) (root tok : String) (bytes : Bytes)
    (ext : String) (fs : FS)
    (hfresh : fs.fileExists (get_storage_path root (sha256hex bytes) VARIANT_ORIGINAL ext)
      = false) :
    store_image_streaming ops root tok none bytes ext fs =
      (let fid := sha256hex bytes
       let origP := get_storage_path root fid VARIANT_ORIGINAL ext
       let fs3 := generate_thumbnails_sync ops root
         (((fs.write (temp_path root tok ext) bytes).unlink (temp_path root tok ext)).write
           origP bytes) origP fid
       .ok ({ file_id := fid,
              storage_path := get_relative_path fid VARIANT_ORIGINAL ext,
              file_extension := ext,
              mime_type := get_mime_type ext,
              file_size := bytes.length,
              width := some (get_image_dimensions ops fs3 origP).1,
              height := some (get_image_dimensions ops fs3 origP).2,
              is_duplicate := false,
              is_video := false }, fs3)) := by
  have hne : temp_path root tok ext ≠
      get_storage_path root (sha256hex bytes) VARIANT_ORIGINAL ext :=
    temp_path_ne_storage root tok ext (sha256hex bytes) ext VARIANT_ORIGINAL (Or.inl rfl)
  have hdup : (fs.write (temp_path root tok ext) bytes).fileExists
      (get_storage_path root (sha256hex bytes) VARIANT_ORIGINAL ext) = false := by
    rw [FS.fileExists_write, if_neg (fun hc => hne hc.symm)]
    exact hfresh
  unfold store_image_streaming
  simp only [hdup, Bool.false_eq_true, if_false]

/-- Evaluation of `_store_image_streaming` in the duplicate branch, with no
injected fault. -/
theorem store_image_dup (ops : ImageOps) (root tok : String) (bytes : Bytes)
    (ext : String) (fs : FS)
    (hdup : fs.fileExists (get_storage_path root (sha256hex bytes) VARIANT_ORIGINAL ext)
      = true) :
    store_image_streaming ops root tok none bytes ext fs =
      (let fid := sha256hex bytes
       let origP := get_storage_path root fid VARIANT_ORIGINAL ext
       let fs2 := (fs.write (temp_path root tok ext) bytes).unlink (temp_path root tok ext)
       let fs3 :=
         if !fs2.fileExists (get_storage_path root fid VARIANT_THUMBNAIL (".webp"))
             || !fs2.fileExists (get_storage_path root fid VARIANT_WEB (".webp")) then
           generate_thumbnails_sync ops root fs2 origP fid
         else fs2
       .ok ({ file_id := fid,
              storage_path := get_relative_path fid VARIANT_ORIGINAL ext,
              file_extension := ext,
              mime_type := get_mime_type ext,
              file_size := bytes.length,
              width := some (get_image_dimensions ops fs3 origP).1,
              height := some (get_image_dimensions ops fs3 origP).2,
              is_duplicate := true,
              is_video := false }, fs3)) := by
  have hne : temp_path root tok ext ≠
      get_storage_path root (sha256hex bytes) VARIANT_ORIGINAL ext :=
    temp_path_ne_storage root tok ext (sha256hex bytes) ext VARIANT_ORIGINAL (Or.inl rfl)
  have hdup2 : (fs.write (temp_path root tok ext) bytes).fileExists
      (get_storage_path root (sha256hex bytes) VARIANT_ORIGINAL ext) = true := by
    rw [FS.fileExists_write, if_neg (fun hc => hne hc.symm)]
    exact hdup
  unfold store_image_streaming
  simp only [hdup2, if_true]

theorem unlink_variant_nofault (fs : FS) (p : String) :
    unlink_variant (fun _ => false) fs p =
      .ok (if fs.fileExists p then fs.unlink p else fs) := by
  unfold unlink_variant
  by_cases h : fs.fileExists p <;> simp [h]

theorem unlink_variant_absent (faultOn : String → Bool) (fs : FS) (p : String)
    (h : fs.fileExists p = false) : unlink_variant faultOn fs p = .ok fs := by
  unfold unlink_variant
  simp [h]

theorem step_not_exists (fs : FS) (p : String) :
    (if fs.fileExists p then fs.unlink p else fs).fileExists p = false := by
  by_cases h : fs.fileExists p <;> simp [h, FS.fileExists_unlink]

theorem step_preserve_false (fs : FS) (p q : String) (h : fs.fileExists q = false) :
    (if fs.fileExists p then fs.unlink p else fs).fileExists q = false := by
  by_cases hp : fs.fileExists p
  · rw [if_pos hp, FS.fileExists_unlink]
    by_cases hq : q = p <;> simp [hq, h]
  · rwa [if_neg hp]

/-! ## Shard-string lemmas -/

theorem take_two_of_append (x y rest : String) (hx : x.length = 2) :
    (x ++ (y ++ rest)).take 2 = x := by
  apply String.ext
  rw [String.data_take]
  simp only [String.data_append]
  have hx2 : x.data.length = 2 := hx
  rw [List.take_append_of_le_length (by omega), ← hx2, List.take_length]

theorem drop_two_take_two (x y rest : String) (hx : x.length = 2) (hy : y.length = 2) :
    ((x ++ (y ++ rest)).drop 2).take 2 = y := by
  apply String.ext
  rw [String.data_take, String.data_drop]
  simp only [String.data_append]
  have hx2 : x.data.length = 2 := hx
  have hy2 : y.data.length = 2 := hy
  rw [List.drop_append_of_le_length (by omega)]
  have hxd : x.data.drop 2 = [] := by
    rw [← hx2]
    exact List.drop_length _
  rw [hxd, List.nil_append, List.take_append_of_le_length (by omega), ← hy2,
    List.take_length]

/-! ## Delete evaluation helpers -/

theorem except_bind_ok {α β : Type} (a : α) (f : α → Except FS β) :
    (Except.ok a : Except FS α) >>= f = f a := rfl

theorem except_bind_error {α β : Type} (e : FS) (f : α → Except FS β) :
    (Except.error e : Except FS α) >>= f = Except.error e := rfl

theorem delete_file_image_eval (root : String) (fs : FS) (file_id extension : String) :
    delete_file root (fun _ => false) fs file_id extension false =
      (let p1 := get_storage_path root file_id VARIANT_ORIGINAL extension
       let p2 := get_storage_path root file_id VARIANT_THUMBNAIL (".webp")
       let p3 := get_storage_path root file_id VARIANT_WEB (".webp")
       let e1 := if fs.fileExists p1 then fs.unlink p1 else fs
       let e2 := if e1.fileExists p2 then e1.unlink p2 else e1
       .ok (if e2.fileExists p3 then e2.unlink p3 else e2)) := by
  unfold delete_file
  simp only [Bool.false_eq_true, if_false]
  rw [unlink_variant_nofault, except_bind_ok, unlink_variant_nofault, except_bind_ok,
    unlink_variant_nofault]

theorem delete_file_video_eval (root : String) (fs : FS) (file_id extension : String) :
    delete_file root (fun _ => false) fs file_id extension true =
      .ok (if fs.fileExists (get_video_path root file_id extension) then
             fs.unlink (get_video_path root file_id extension) else fs) :=
  unlink_variant_nofault fs _

theorem delete_file_image_noop (root : String) (faultOn : String → Bool) (fs : FS)
    (file_id extension : String)
    (h1 : fs.fileExists (get_storage_path root file_id VARIANT_ORIGINAL extension) = false)
    (h2 : fs.fileExists (get_storage_path root file_id VARIANT_THUMBNAIL (".webp")) = false)
    (h3 : fs.fileExists (get_storage_path root file_id VARIANT_WEB (".webp")) = false) :
    delete_file root faultOn fs file_id extension false = .ok fs := by
  unfold delete_file
  simp only [Bool.false_eq_true, if_false]
  rw [unlink_variant_absent faultOn fs _ h1, except_bind_ok,
    unlink_variant_absent faultOn fs _ h2, except_bind_ok,
    unlink_variant_absent faultOn fs _ h3]

theorem delete_file_video_noop (root : String) (faultOn : String → Bool) (fs : FS)
    (file_id extension : String)
    (h : fs.fileExists (get_video_path root file_id extension) = false) :
    delete_file root faultOn fs file_id extension true = .ok fs :=
  unlink_variant_absent faultOn fs _ h

/-! ## Shared concrete instances used by witnesses and counterexamples -/

/-- A PIL model whose decoder always fails (undecodable content). -/
def opsNone : ImageOps := ⟨fun _ => none, fun b => b, fun b => b⟩

/-- A PIL model whose decoder always succeeds and whose derived variants
keep the source bytes, so derivation inputs are observable. -/
def opsProbe : ImageOps := ⟨fun _ => some (1, 1), fun b => b, fun b => b⟩

/-! ## Claim theorems -/

/-- C9: `sweepOnce` is idempotent.  Running `cleanup_old_temp_files` twice in
a row — same clock reading, no files created or modified in between — leaves
the state of the first run unchanged and reclaims 0 files and 0 bytes on the
second call, for every filesystem state. -/
theorem sweep_once_idempotent (now : Nat) (st : SweepState) :
    cleanup_old_temp_files now (cleanup_old_temp_files now st).1 =
      ((cleanup_old_temp_files now st).1, 0, 0) := by
  unfold cleanup_old_temp_files
  simp only [sweep_pass_pass_stable, sweep_pass_idem]

/-- C4 counterexample: the identity `ab12cd...` is sharded by its first two
and NEXT two hex characters, so it lands in directory `ab/12/`, not in the
`ab/cd/` directory that the claim's worked example asserts. -/
theorem resolve_path_example_mismatch :
    get_file_path ("r") ("ab12cd00") (".jpg") VARIANT_ORIGINAL false =
      ("r/originals/ab/12/ab12cd00.jpg") ∧
    ("r/originals/ab/12/ab12cd00.jpg") ≠ ("r/originals/ab/cd/ab12cd00.jpg") := by
  constructor
  · rfl
  · decide

/-- C4 (amended): `get_file_path` on a non-video identity `x ++ y ++ rest`
(`x`, `y` of length 2) is `<root>/<variant>/<x>/<y>/<identity><ext>`, where
the extension is forced to `.webp` for the thumbnail and web variants; the
function is pure and total, so it never fails and performs no IO.  In
particular identity `ab12cd...` maps to directory `<variant-root>/ab/12/`. -/
theorem resolve_path_shards (root x y rest variant extension : String)
    (hx : x.length = 2) (hy : y.length = 2) :
    get_file_path root (x ++ (y ++ rest)) extension variant false =
      root ++ ("/" ++ (variant ++ ("/" ++ (x ++ ("/" ++ (y ++ ("/" ++ ((x ++ (y ++ rest)) ++
        (if variant = VARIANT_THUMBNAIL ∨ variant = VARIANT_WEB then (".webp")
         else extension))))))))) := by
  unfold get_file_path get_storage_path
  simp only [Bool.false_eq_true, if_false]
  rw [take_two_of_append x y rest hx, drop_two_take_two x y rest hx hy]

/-- Witness for C4's amended theorem at the concrete identity `ab12cd00`. -/
theorem resolve_path_shards_witness :
    get_file_path ("r") (("ab") ++ (("12") ++ ("cd00"))) (".jpg") VARIANT_ORIGINAL false =
      ("r") ++ ("/" ++ (VARIANT_ORIGINAL ++ ("/" ++ (("ab") ++ ("/" ++ (("12") ++ ("/" ++
        ((("ab") ++ (("12") ++ ("cd00"))) ++
        (if VARIANT_ORIGINAL = VARIANT_THUMBNAIL ∨ VARIANT_ORIGINAL = VARIANT_WEB
         then (".webp") else (".jpg")))))))))) :=
  resolve_path_shards ("r") ("ab") ("12") ("cd00") VARIANT_ORIGINAL (".jpg") rfl rfl

/-- C10: `regenerate_thumbnails` returns `false` exactly when no file exists
at the identity's original-variant path; when the original exists it returns
`true`, and when the stored original is undecodable the call still returns
`true` while leaving the filesystem unchanged — so a `true` return does not
guarantee that the thumbnail and web files exist afterwards. -/
theorem regenerate_thumbnails_contract (ops : ImageOps) (root : String) (fs : FS)
    (file_id extension : String) :
    ((regenerate_thumbnails ops root fs file_id extension).1 = false ↔
      fs.fileExists (get_storage_path root file_id VARIANT_ORIGINAL extension) = false)
    ∧ (fs.fileExists (get_storage_path root file_id VARIANT_ORIGINAL extension) = true →
        (regenerate_thumbnails ops root fs file_id extension).1 = true)
    ∧ (∀ ob, fs.read (get_storage_path root file_id VARIANT_ORIGINAL extension) = some ob →
        ops.decode ob = none →
        (regenerate_thumbnails ops root fs file_id extension).1 = true ∧
        (regenerate_thumbnails ops root fs file_id extension).2 = fs) := by
  unfold regenerate_thumbnails
  by_cases h : fs.fileExists (get_storage_path root file_id VARIANT_ORIGINAL extension) = true
  · rw [if_pos h]
    refine ⟨by simp [h], fun _ => rfl, ?_⟩
    intro ob hob hdec
    refine ⟨rfl, ?_⟩
    show generate_thumbnails_sync ops root fs _ file_id = fs
    unfold generate_thumbnails_sync
    rw [hob]
    simp [hdec]
  · have h2 : fs.fileExists (get_storage_path root file_id VARIANT_ORIGINAL extension)
        = false := by simpa using h
    rw [if_neg h]
    refine ⟨by simp [h2], fun hc => absurd hc h, ?_⟩
    intro ob hob hdec
    exfalso
    apply h
    simp [FS.fileExists, hob]

/-- Witness for C10 at a concrete state holding an undecodable original. -/
theorem regenerate_thumbnails_contract_witness :
    ((regenerate_thumbnails opsNone ("r")
        (FS.write FS.empty (get_storage_path ("r") ("aabbccdd") VARIANT_ORIGINAL (".jpg")) [5])
        ("aabbccdd") (".jpg")).1 = true ∧
      (regenerate_thumbnails opsNone ("r")
        (FS.write FS.empty (get_storage_path ("r") ("aabbccdd") VARIANT_ORIGINAL (".jpg")) [5])
        ("aabbccdd") (".jpg")).2 =
        FS.write FS.empty (get_storage_path ("r") ("aabbccdd") VARIANT_ORIGINAL (".jpg")) [5]) :=
  (regenerate_thumbnails_contract opsNone ("r")
      (FS.write FS.empty (get_storage_path ("r") ("aabbccdd") VARIANT_ORIGINAL (".jpg")) [5])
      ("aabbccdd") (".jpg")).2.2 [5] (by rfl) (by rfl)

/-- C2 counterexample: `delete_file` with `is_video = True` removes only the
video file; a poster-thumbnail stored for the same identity (at the path the
API layer and the poster-generation script use) survives the deletion, so
not every variant path of the identity is removed. -/
theorem delete_all_video_poster_remains :
    delete_file ("r") (fun _ => false)
        ⟨[(("r/thumbnails/aa/bb/aabbccdd.webp"), [2]), (("r/videos/aabbccdd.mp4"), [1])]⟩
        ("aabbccdd") (".mp4") true =
      .ok ⟨[(("r/thumbnails/aa/bb/aabbccdd.webp"), [2])]⟩ ∧
    FS.fileExists ⟨[(("r/thumbnails/aa/bb/aabbccdd.webp"), [2])]⟩
        (get_storage_path ("r") ("aabbccdd") VARIANT_THUMBNAIL (".webp")) = true := by
  exact ⟨rfl, rfl⟩

/-- C2 (amended): with no filesystem faults, `delete_file` on an image
identity removes the original, thumbnail and web variant paths, and on a
video identity removes only the video file path (poster thumbnail/web files
are left in place); in both cases deleting again on the already-deleted
identity succeeds without error, for every fault pattern, because every
removal is guarded by an existence check. -/
theorem delete_file_removes_variants (root : String) (fs : FS) (file_id extension : String) :
    (∃ fs2, delete_file root (fun _ => false) fs file_id extension false = .ok fs2 ∧
      fs2.fileExists (get_storage_path root file_id VARIANT_ORIGINAL extension) = false ∧
      fs2.fileExists (get_storage_path root file_id VARIANT_THUMBNAIL (".webp")) = false ∧
      fs2.fileExists (get_storage_path root file_id VARIANT_WEB (".webp")) = false ∧
      ∀ faultOn, delete_file root faultOn fs2 file_id extension false = .ok fs2) ∧
    (∃ fs2, delete_file root (fun _ => false) fs file_id extension true = .ok fs2 ∧
      fs2.fileExists (get_video_path root file_id extension) = false ∧
      ∀ faultOn, delete_file root faultOn fs2 file_id extension true = .ok fs2) := by
  constructor
  · refine ⟨_, delete_file_image_eval root fs file_id extension, ?_, ?_, ?_, ?_⟩
    · exact step_preserve_false _ _ _ (step_preserve_false _ _ _ (step_not_exists fs _))
    · exact step_preserve_false _ _ _ (step_not_exists _ _)
    · exact step_not_exists _ _
    · intro faultOn
      exact delete_file_image_noop root faultOn _ file_id extension
        (step_preserve_false _ _ _ (step_preserve_false _ _ _ (step_not_exists fs _)))
        (step_preserve_false _ _ _ (step_not_exists _ _))
        (step_not_exists _ _)
  · refine ⟨_, delete_file_video_eval root fs file_id extension, ?_, ?_⟩
    · exact step_not_exists fs _
    · intro faultOn
      exact delete_file_video_noop root faultOn _ file_id extension (step_not_exists fs _)

/-- C3 counterexample: a filesystem error while unlinking the original
variant propagates out of `delete_file` (there is no try/except inside it),
and the remaining variant paths are not attempted — the thumbnail is still
present in the state the error carries. -/
theorem delete_file_error_not_swallowed :
    delete_file ("r") (fun p => p == ("r/originals/aa/bb/aabbccdd.jpg"))
        ⟨[(("r/originals/aa/bb/aabbccdd.jpg"), [1]),
          (("r/thumbnails/aa/bb/aabbccdd.webp"), [2])]⟩
        ("aabbccdd") (".jpg") false =
      .error ⟨[(("r/originals/aa/bb/aabbccdd.jpg"), [1]),
               (("r/thumbnails/aa/bb/aabbccdd.webp"), [2])]⟩ ∧
    FS.fileExists ⟨[(("r/originals/aa/bb/aabbccdd.jpg"), [1]),
                    (("r/thumbnails/aa/bb/aabbccdd.webp"), [2])]⟩
        (get_storage_path ("r") ("aabbccdd") VARIANT_THUMBNAIL (".webp")) = true := by
  exact ⟨rfl, rfl⟩

/-- C3 (amended): a filesystem error raised while removing a variant path is
not swallowed inside `delete_file`: it propagates to the caller with the
filesystem unchanged, and the remaining variant paths of that call are not
attempted (the catalog-layer callers wrap the whole `delete_file` call in a
log-and-swallow handler; only a missing file is tolerated per path). -/
theorem delete_file_error_propagates (root : String) (faultOn : String → Bool) (fs : FS)
    (file_id extension : String)
    (h1 : fs.fileExists (get_storage_path root file_id VARIANT_ORIGINAL extension) = true)
    (h2 : faultOn (get_storage_path root file_id VARIANT_ORIGINAL extension) = true) :
    delete_file root faultOn fs file_id extension false = .error fs := by
  unfold delete_file unlink_variant
  simp [h1, h2, except_bind_error]

/-- Witness for C3's amended theorem at a concrete two-file state. -/
theorem delete_file_error_propagates_witness :
    delete_file ("r") (fun p => p == ("r/originals/aa/bb/aabbccdd.jpg"))
        ⟨[(("r/originals/aa/bb/aabbccdd.jpg"), [1])]⟩ ("aabbccdd") (".jpg") false =
      .error ⟨[(("r/originals/aa/bb/aabbccdd.jpg"), [1])]⟩ :=
  delete_file_error_propagates ("r") (fun p => p == ("r/originals/aa/bb/aabbccdd.jpg"))
    ⟨[(("r/originals/aa/bb/aabbccdd.jpg"), [1])]⟩ ("aabbccdd") (".jpg") (by rfl) (by rfl)

/-- C6: when an image ingestion fails with an IO error (any injected fault:
disk error while streaming to the temp file, failing `unlink` of the temp in
the duplicate branch, or failing `mkdir`/`rename`), the error reaches the
caller only after the `except` handler has removed the temporary file, and
the error state contains no file — in particular at no permanent sharded
path — that was not already present before the call. -/
theorem store_image_failure_cleanup (ops : ImageOps) (root tok : String) (f : Fault)
    (bytes : Bytes) (ext : String) (fs fs2 : FS)
    (herr : store_image_streaming ops root tok (some f) bytes ext fs = .error fs2) :
    fs2.fileExists (temp_path root tok ext) = false ∧
    ∀ p, fs2.fileExists p = true → fs.fileExists p = true := by
  cases f with
  | tempWrite k =>
    have herr2 : Except.error (cleanup_temp
          (fs.write (temp_path root tok ext) (bytes.take k)) (temp_path root tok ext)) =
        (Except.error fs2 : Except FS (StoredFile × FS)) := herr
    injection herr2 with h2
    rw [← h2]
    exact cleanup_write_props fs _ _
  | dupUnlink =>
    unfold store_image_streaming at herr
    by_cases hd : (fs.write (temp_path root tok ext) bytes).fileExists
        (get_storage_path root (sha256hex bytes) VARIANT_ORIGINAL ext) = true
    · simp only [hd, if_true, Except.error.injEq] at herr
      rw [← herr]
      exact cleanup_write_props fs _ _
    · have hd2 : (fs.write (temp_path root tok ext) bytes).fileExists
          (get_storage_path root (sha256hex bytes) VARIANT_ORIGINAL ext) = false := by
        simpa using hd
      simp [hd2] at herr
  | renameFail =>
    unfold store_image_streaming at herr
    by_cases hd : (fs.write (temp_path root tok ext) bytes).fileExists
        (get_storage_path root (sha256hex bytes) VARIANT_ORIGINAL ext) = true
    · simp [hd] at herr
    · have hd2 : (fs.write (temp_path root tok ext) bytes).fileExists
          (get_storage_path root (sha256hex bytes) VARIANT_ORIGINAL ext) = false := by
        simpa using hd
      simp only [hd2, Bool.false_eq_true, if_false, Except.error.injEq] at herr
      rw [← herr]
      exact cleanup_write_props fs _ _

/-- Witness for C6: a streaming fault on the empty filesystem errors out with
the temp file already removed and nothing new on disk. -/
theorem store_image_failure_cleanup_witness :
    FS.fileExists ⟨[]⟩ (temp_path ("r") ("t") (".jpg")) = false ∧
    (∀ p, FS.fileExists ⟨[]⟩ p = true → FS.fileExists FS.empty p = true) :=
  store_image_failure_cleanup opsNone ("r") ("t") (Fault.tempWrite 0) [1] (".jpg")
    FS.empty ⟨[]⟩ (by rfl)

/-- C1: ingesting the same image byte stream twice (no deletion in between,
content not previously stored) succeeds both times with the same content
identity — the 64-character lowercase-hex SHA-256 digest of the bytes — and
the first call reports `is_duplicate = false` while the second reports
`is_duplicate = true`. -/
theorem ingest_image_twice_dedup (ops : ImageOps) (root tok1 tok2 suffix : String)
    (bytes : Bytes) (fs : FS)
    (himg : is_video (normalize_ext suffix) = false)
    (hfresh : fs.fileExists (get_storage_path root (sha256hex bytes) VARIANT_ORIGINAL
      (normalize_ext suffix)) = false) :
    ∃ r1 fs1 r2 fs2,
      store_file_streaming ops root tok1 none bytes suffix fs = .ok (r1, fs1) ∧
      store_file_streaming ops root tok2 none bytes suffix fs1 = .ok (r2, fs2) ∧
      r1.file_id = sha256hex bytes ∧
      r2.file_id = sha256hex bytes ∧
      (sha256hex bytes).length = 64 ∧
      (∀ c ∈ (sha256hex bytes).data, isLowerHexChar c = true) ∧
      r1.is_duplicate = false ∧
      r2.is_duplicate = true := by
  have h1nodup := store_image_nodup ops root tok1 bytes (normalize_ext suffix) fs hfresh
  have hdisp1 : store_file_streaming ops root tok1 none bytes suffix fs =
      store_image_streaming ops root tok1 none bytes (normalize_ext suffix) fs := by
    unfold store_file_streaming
    simp only [himg, Bool.false_eq_true, if_false]
  have hex1 : (generate_thumbnails_sync ops root
      (((fs.write (temp_path root tok1 (normalize_ext suffix)) bytes).unlink
          (temp_path root tok1 (normalize_ext suffix))).write
        (get_storage_path root (sha256hex bytes) VARIANT_ORIGINAL (normalize_ext suffix))
        bytes)
      (get_storage_path root (sha256hex bytes) VARIANT_ORIGINAL (normalize_ext suffix))
      (sha256hex bytes)).fileExists
        (get_storage_path root (sha256hex bytes) VARIANT_ORIGINAL (normalize_ext suffix))
      = true := by
    apply gts_exists_mono
    simp [FS.fileExists_write]
  have h2dup := store_image_dup ops root tok2 bytes (normalize_ext suffix) _ hex1
  have hdisp2 : store_file_streaming ops root tok2 none bytes suffix
        (generate_thumbnails_sync ops root
          (((fs.write (temp_path root tok1 (normalize_ext suffix)) bytes).unlink
              (temp_path root tok1 (normalize_ext suffix))).write
            (get_storage_path root (sha256hex bytes) VARIANT_ORIGINAL (normalize_ext suffix))
            bytes)
          (get_storage_path root (sha256hex bytes) VARIANT_ORIGINAL (normalize_ext suffix))
          (sha256hex bytes)) =
      store_image_streaming ops root tok2 none bytes (normalize_ext suffix)
        (generate_thumbnails_sync ops root
          (((fs.write (temp_path root tok1 (normalize_ext suffix)) bytes).unlink
              (temp_path root tok1 (normalize_ext suffix))).write
            (get_storage_path root (sha256hex bytes) VARIANT_ORIGINAL (normalize_ext suffix))
            bytes)
          (get_storage_path root (sha256hex bytes) VARIANT_ORIGINAL (normalize_ext suffix))
          (sha256hex bytes)) := by
    unfold store_file_streaming
    simp only [himg, Bool.false_eq_true, if_false]
  exact ⟨_, _, _, _, hdisp1.trans h1nodup, hdisp2.trans h2dup, rfl, rfl,
    sha256hex_length bytes, sha256hex_lower bytes, rfl, rfl⟩

/-- Witness for C1 on the one-byte stream `[97]` against an empty store. -/
theorem ingest_image_twice_dedup_witness :
    ∃ r1 fs1 r2 fs2,
      store_file_streaming opsNone ("r") ("t1") none [97] (".jpg") FS.empty = .ok (r1, fs1) ∧
      store_file_streaming opsNone ("r") ("t2") none [97] (".jpg") fs1 = .ok (r2, fs2) ∧
      r1.file_id = sha256hex [97] ∧
      r2.file_id = sha256hex [97] ∧
      (sha256hex [97]).length = 64 ∧
      (∀ c ∈ (sha256hex [97]).data, isLowerHexChar c = true) ∧
      r1.is_duplicate = false ∧
      r2.is_duplicate = true :=
  ingest_image_twice_dedup opsNone ("r") ("t1") ("t2") (".jpg") [97] FS.empty
    (by rfl) (by rfl)

/-- C5 counterexample: in the duplicate branch the missing variants are
regenerated from the bytes already stored at the original path, not from the
temp bytes (which are unlinked first).  With a decoder that passes bytes
through, ingesting `[97]` while junk `[98]` sits at the identity's original
path yields a thumbnail holding `[98]` — regeneration from the
"now-duplicate temp bytes" would have produced `[97]`. -/
theorem ingest_duplicate_regen_from_original :
    (match store_image_streaming opsProbe ("r") ("t") none [97] (".jpg")
        (FS.write FS.empty
          (get_storage_path ("r") (sha256hex [97]) VARIANT_ORIGINAL (".jpg")) [98]) with
     | .ok (_, fs2) =>
        fs2.read (get_storage_path ("r") (sha256hex [97]) VARIANT_THUMBNAIL (".webp"))
     | .error _ => none) = some [98] ∧
    ¬ ([98] : Bytes) = ([97] : Bytes) := by
  exact ⟨rfl, by decide⟩

/-- C5 (amended): if a file exists at an identity's original path and the
thumbnail or web variant is missing, ingesting a duplicate of that content
discards the temp file and regenerates the missing variants from the stored
original bytes before the call returns; the result reports a duplicate and
the temp file is gone. -/
theorem ingest_duplicate_self_heals (ops : ImageOps) (root tok ext : String)
    (bytes origBytes : Bytes) (fs : FS) (w h : Nat)
    (horig : fs.read (get_storage_path root (sha256hex bytes) VARIANT_ORIGINAL ext)
      = some origBytes)
    (hdec : ops.decode origBytes = some (w, h))
    (hmiss : fs.fileExists (get_storage_path root (sha256hex bytes) VARIANT_THUMBNAIL
        (".webp")) = false ∨
      fs.fileExists (get_storage_path root (sha256hex bytes) VARIANT_WEB (".webp"))
        = false) :
    ∃ r fs2,
      store_image_streaming ops root tok none bytes ext fs = .ok (r, fs2) ∧
      r.is_duplicate = true ∧
      fs2.read (get_storage_path root (sha256hex bytes) VARIANT_THUMBNAIL (".webp"))
        = some (ops.thumbBytes origBytes) ∧
      fs2.read (get_storage_path root (sha256hex bytes) VARIANT_WEB (".webp"))
        = some (ops.webBytes origBytes) ∧
      fs2.fileExists (temp_path root tok ext) = false := by
  have hTneO : temp_path root tok ext ≠
      get_storage_path root (sha256hex bytes) VARIANT_ORIGINAL ext :=
    temp_path_ne_storage root tok ext (sha256hex bytes) ext VARIANT_ORIGINAL (Or.inl rfl)
  have hTneT : temp_path root tok ext ≠
      get_storage_path root (sha256hex bytes) VARIANT_THUMBNAIL (".webp") :=
    temp_path_ne_storage root tok ext (sha256hex bytes) (".webp") VARIANT_THUMBNAIL
      (Or.inr (Or.inl rfl))
  have hTneW : temp_path root tok ext ≠
      get_storage_path root (sha256hex bytes) VARIANT_WEB (".webp") :=
    temp_path_ne_storage root tok ext (sha256hex bytes) (".webp") VARIANT_WEB
      (Or.inr (Or.inr rfl))
  have hdup : fs.fileExists (get_storage_path root (sha256hex bytes) VARIANT_ORIGINAL ext)
      = true := by simp [FS.fileExists, horig]
  have hAread : ∀ q, q ≠ temp_path root tok ext →
      ((fs.write (temp_path root tok ext) bytes).unlink (temp_path root tok ext)).read q
        = fs.read q := by
    intro q hq
    rw [write_unlink_read]
    simp [hq]
  have hAexists : ∀ q, q ≠ temp_path root tok ext →
      ((fs.write (temp_path root tok ext) bytes).unlink (temp_path root tok ext)).fileExists q
        = fs.fileExists q := by
    intro q hq
    simp [FS.fileExists, hAread q hq]
  have hcond : (!((fs.write (temp_path root tok ext) bytes).unlink
        (temp_path root tok ext)).fileExists (get_storage_path root (sha256hex bytes)
          VARIANT_THUMBNAIL (".webp")) ||
      !((fs.write (temp_path root tok ext) bytes).unlink
        (temp_path root tok ext)).fileExists (get_storage_path root (sha256hex bytes)
          VARIANT_WEB (".webp"))) = true := by
    rcases hmiss with hm | hm
    · rw [hAexists _ (Ne.symm hTneT), hm]
      simp
    · rw [hAexists _ (Ne.symm hTneW), hm]
      simp
  have hAorig : ((fs.write (temp_path root tok ext) bytes).unlink
      (temp_path root tok ext)).read (get_storage_path root (sha256hex bytes)
        VARIANT_ORIGINAL ext) = some origBytes := by
    rw [hAread _ (Ne.symm hTneO)]
    exact horig
  have hgts : generate_thumbnails_sync ops root
      ((fs.write (temp_path root tok ext) bytes).unlink (temp_path root tok ext))
      (get_storage_path root (sha256hex bytes) VARIANT_ORIGINAL ext) (sha256hex bytes) =
      (((fs.write (temp_path root tok ext) bytes).unlink (temp_path root tok ext)).write
          (get_storage_path root (sha256hex bytes) VARIANT_THUMBNAIL (".webp"))
          (ops.thumbBytes origBytes)).write
        (get_storage_path root (sha256hex bytes) VARIANT_WEB (".webp"))
        (ops.webBytes origBytes) := by
    unfold generate_thumbnails_sync
    rw [hAorig]
    simp [hdec]
  have h3 : store_image_streaming ops root tok none bytes ext fs =
      .ok ({ file_id := sha256hex bytes,
             storage_path := get_relative_path (sha256hex bytes) VARIANT_ORIGINAL ext,
             file_extension := ext,
             mime_type := get_mime_type ext,
             file_size := bytes.length,
             width := some (get_image_dimensions ops
               ((((fs.write (temp_path root tok ext) bytes).unlink
                   (temp_path root tok ext)).write
                  (get_storage_path root (sha256hex bytes) VARIANT_THUMBNAIL (".webp"))
                  (ops.thumbBytes origBytes)).write
                 (get_storage_path root (sha256hex bytes) VARIANT_WEB (".webp"))
                 (ops.webBytes origBytes))
               (get_storage_path root (sha256hex bytes) VARIANT_ORIGINAL ext)).1,
             height := some (get_image_dimensions ops
               ((((fs.write (temp_path root tok ext) bytes).unlink
                   (temp_path root tok ext)).write
                  (get_storage_path root (sha256hex bytes) VARIANT_THUMBNAIL (".webp"))
                  (ops.thumbBytes origBytes)).write
                 (get_storage_path root (sha256hex bytes) VARIANT_WEB (".webp"))
                 (ops.webBytes origBytes))
               (get_storage_path root (sha256hex bytes) VARIANT_ORIGINAL ext)).2,
             is_duplicate := true,
             is_video := false },
           (((fs.write (temp_path root tok ext) bytes).unlink
               (temp_path root tok ext)).write
              (get_storage_path root (sha256hex bytes) VARIANT_THUMBNAIL (".webp"))
              (ops.thumbBytes origBytes)).write
             (get_storage_path root (sha256hex bytes) VARIANT_WEB (".webp"))
             (ops.webBytes origBytes)) := by
    rw [store_image_dup ops root tok bytes ext fs hdup]
    simp only [hcond, eq_self_iff_true, if_true, hgts]
  refine ⟨_, _, h3, rfl, ?_, ?_, ?_⟩
  · rw [FS.read_write, if_neg (storage_thumb_ne_web root (sha256hex bytes) (".webp")
      (sha256hex bytes) (".webp")), FS.read_write, if_pos rfl]
  · rw [FS.read_write, if_pos rfl]
  · show (FS.read _ _).isSome = false
    rw [FS.read_write, if_neg hTneW, FS.read_write, if_neg hTneT, write_unlink_read,
      if_pos rfl]
    rfl

/-- Witness for C5's amended theorem: junk bytes `[98]` stored at the
identity of `[97]` with no thumbnail; the duplicate ingest self-heals. -/
theorem ingest_duplicate_self_heals_witness :
    ∃ r fs2,
      store_image_streaming opsProbe ("r") ("t") none [97] (".jpg")
        (FS.write FS.empty
          (get_storage_path ("r") (sha256hex [97]) VARIANT_ORIGINAL (".jpg")) [98])
        = .ok (r, fs2) ∧
      r.is_duplicate = true ∧
      fs2.read (get_storage_path ("r") (sha256hex [97]) VARIANT_THUMBNAIL (".webp"))
        = some (opsProbe.thumbBytes [98]) ∧
      fs2.read (get_storage_path ("r") (sha256hex [97]) VARIANT_WEB (".webp"))
        = some (opsProbe.webBytes [98]) ∧
      fs2.fileExists (temp_path ("r") ("t") (".jpg")) = false :=
  ingest_duplicate_self_heals opsProbe ("r") ("t") (".jpg") [97] [98]
    (FS.write FS.empty
      (get_storage_path ("r") (sha256hex [97]) VARIANT_ORIGINAL (".jpg")) [98]) 1 1
    (by rfl) (by rfl) (Or.inl (by rfl))

/-- C7: a stream whose (case-insensitively normalized) extension is in the
video table is stored under a caller-supplied fresh random identity with no
hashing and no inline variant derivation: the result is never a duplicate,
has no dimensions, and lands unsharded under `videos/`; ingesting the same
bytes twice with distinct tokens yields distinct identities and two
independent files, and nothing else is written. -/
theorem ingest_video_twice_isolated (ops : ImageOps) (root tok1 tok2 suffix : String)
    (fault1 fault2 : Option Fault) (bytes : Bytes) (fs : FS)
    (hvid : is_video (normalize_ext suffix) = true)
    (htok : tok1 ≠ tok2) :
    ∃ r1 fs1 r2 fs2,
      store_file_streaming ops root tok1 fault1 bytes suffix fs = .ok (r1, fs1) ∧
      store_file_streaming ops root tok2 fault2 bytes suffix fs1 = .ok (r2, fs2) ∧
      r1.file_id = tok1 ∧ r2.file_id = tok2 ∧ ¬ r1.file_id = r2.file_id ∧
      r1.is_duplicate = false ∧ r2.is_duplicate = false ∧
      r1.width = none ∧ r1.height = none ∧ r2.width = none ∧ r2.height = none ∧
      r1.storage_path = get_relative_video_path tok1 (normalize_ext suffix) ∧
      r2.storage_path = get_relative_video_path tok2 (normalize_ext suffix) ∧
      ¬ get_video_path root tok1 (normalize_ext suffix)
          = get_video_path root tok2 (normalize_ext suffix) ∧
      fs2.read (get_video_path root tok1 (normalize_ext suffix)) = some bytes ∧
      fs2.read (get_video_path root tok2 (normalize_ext suffix)) = some bytes ∧
      (∀ q, fs2.fileExists q = true ↔
        (fs.fileExists q = true ∨ q = get_video_path root tok1 (normalize_ext suffix)
          ∨ q = get_video_path root tok2 (normalize_ext suffix))) := by
  have hpne : ¬ get_video_path root tok1 (normalize_ext suffix)
      = get_video_path root tok2 (normalize_ext suffix) :=
    fun hh => htok (get_video_path_inj root tok1 tok2 _ hh)
  have h1 : store_file_streaming ops root tok1 fault1 bytes suffix fs =
      .ok (store_video_streaming root tok1 bytes (normalize_ext suffix) fs) := by
    unfold store_file_streaming
    simp only [hvid, if_true]
  have h2 : store_file_streaming ops root tok2 fault2 bytes suffix
        (fs.write (get_video_path root tok1 (normalize_ext suffix)) bytes) =
      .ok (store_video_streaming root tok2 bytes (normalize_ext suffix)
        (fs.write (get_video_path root tok1 (normalize_ext suffix)) bytes)) := by
    unfold store_file_streaming
    simp only [hvid, if_true]
  refine ⟨_, _, _, _, h1, h2, rfl, rfl, htok, rfl, rfl, rfl, rfl, rfl, rfl, rfl, rfl,
    hpne, ?_, ?_, ?_⟩
  · rw [FS.read_write, if_neg hpne, FS.read_write, if_pos rfl]
  · rw [FS.read_write, if_pos rfl]
  · intro q
    rw [FS.fileExists_write, FS.fileExists_write]
    by_cases h2q : q = get_video_path root tok2 (normalize_ext suffix)
    · simp [h2q]
    · by_cases h1q : q = get_video_path root tok1 (normalize_ext suffix) <;>
        simp [h1q, h2q]

/-- Witness for C7 with a `.mov` upload ingested twice. -/
theorem ingest_video_twice_isolated_witness :
    ∃ r1 fs1 r2 fs2,
      store_file_streaming opsNone ("r") ("a") none [1] (".mov") FS.empty = .ok (r1, fs1) ∧
      store_file_streaming opsNone ("r") ("b") none [1] (".mov") fs1 = .ok (r2, fs2) ∧
      r1.file_id = ("a") ∧ r2.file_id = ("b") ∧ ¬ r1.file_id = r2.file_id ∧
      r1.is_duplicate = false ∧ r2.is_duplicate = false ∧
      r1.width = none ∧ r1.height = none ∧ r2.width = none ∧ r2.height = none ∧
      r1.storage_path = get_relative_video_path ("a") (normalize_ext (".mov")) ∧
      r2.storage_path = get_relative_video_path ("b") (normalize_ext (".mov")) ∧
      ¬ get_video_path ("r") ("a") (normalize_ext (".mov"))
          = get_video_path ("r") ("b") (normalize_ext (".mov")) ∧
      fs2.read (get_video_path ("r") ("a") (normalize_ext (".mov"))) = some [1] ∧
      fs2.read (get_video_path ("r") ("b") (normalize_ext (".mov"))) = some [1] ∧
      (∀ q, fs2.fileExists q = true ↔
        (FS.fileExists FS.empty q = true ∨ q = get_video_path ("r") ("a") (normalize_ext (".mov"))
          ∨ q = get_video_path ("r") ("b") (normalize_ext (".mov")))) :=
  ingest_video_twice_isolated opsNone ("r") ("a") ("b") (".mov") none none [1] FS.empty
    (by rfl) (by decide)

/-- C8: ingestion never fails on a valid but unrecognized file type: with an
extension in neither table the call still succeeds, reports the generic
binary MIME type `application/octet-stream`, and when the decoder cannot
parse the bytes the result carries width and height zero instead of an
error. -/
theorem ingest_unrecognized_type (ops : ImageOps) (root tok suffix : String)
    (bytes : Bytes) (fs : FS)
    (hni : IMAGE_MIME_TYPES.lookup (toLowerStr (normalize_ext suffix)) = none)
    (hnv : VIDEO_MIME_TYPES.lookup (toLowerStr (normalize_ext suffix)) = none)
    (hdec : ops.decode bytes = none)
    (hfresh : fs.fileExists (get_storage_path root (sha256hex bytes) VARIANT_ORIGINAL
      (normalize_ext suffix)) = false) :
    ∃ r fs2, store_file_streaming ops root tok none bytes suffix fs = .ok (r, fs2) ∧
      r.mime_type = ("application/octet-stream") ∧
      r.width = some 0 ∧ r.height = some 0 := by
  have himg : is_video (normalize_ext suffix) = false := by
    unfold is_video
    rw [hnv]
    rfl
  have h1nodup := store_image_nodup ops root tok bytes (normalize_ext suffix) fs hfresh
  have hdisp : store_file_streaming ops root tok none bytes suffix fs =
      store_image_streaming ops root tok none bytes (normalize_ext suffix) fs := by
    unfold store_file_streaming
    simp only [himg, Bool.false_eq_true, if_false]
  have hreadB : (((fs.write (temp_path root tok (normalize_ext suffix)) bytes).unlink
      (temp_path root tok (normalize_ext suffix))).write
        (get_storage_path root (sha256hex bytes) VARIANT_ORIGINAL (normalize_ext suffix))
        bytes).read
      (get_storage_path root (sha256hex bytes) VARIANT_ORIGINAL (normalize_ext suffix))
      = some bytes := by
    rw [FS.read_write, if_pos rfl]
  have hg : generate_thumbnails_sync ops root
      (((fs.write (temp_path root tok (normalize_ext suffix)) bytes).unlink
        (temp_path root tok (normalize_ext suffix))).write
          (get_storage_path root (sha256hex bytes) VARIANT_ORIGINAL (normalize_ext suffix))
          bytes)
      (get_storage_path root (sha256hex bytes) VARIANT_ORIGINAL (normalize_ext suffix))
      (sha256hex bytes) =
      ((fs.write (temp_path root tok (normalize_ext suffix)) bytes).unlink
        (temp_path root tok (normalize_ext suffix))).write
          (get_storage_path root (sha256hex bytes) VARIANT_ORIGINAL (normalize_ext suffix))
          bytes := by
    unfold generate_thumbnails_sync
    rw [hreadB]
    simp [hdec]
  have hdim : get_image_dimensions ops
      (generate_thumbnails_sync ops root
        (((fs.write (temp_path root tok (normalize_ext suffix)) bytes).unlink
          (temp_path root tok (normalize_ext suffix))).write
            (get_storage_path root (sha256hex bytes) VARIANT_ORIGINAL
              (normalize_ext suffix)) bytes)
        (get_storage_path root (sha256hex bytes) VARIANT_ORIGINAL (normalize_ext suffix))
        (sha256hex bytes))
      (get_storage_path root (sha256hex bytes) VARIANT_ORIGINAL (normalize_ext suffix))
      = (0, 0) := by
    rw [hg]
    unfold get_image_dimensions
    rw [hreadB]
    simp [hdec]
  refine ⟨_, _, hdisp.trans h1nodup, ?_, ?_, ?_⟩
  · show get_mime_type (normalize_ext suffix) = ("application/octet-stream")
    simp [get_mime_type, hni, hnv]
  · show some (get_image_dimensions ops
        (generate_thumbnails_sync ops root
          (((fs.write (temp_path root tok (normalize_ext suffix)) bytes).unlink
            (temp_path root tok (normalize_ext suffix))).write
              (get_storage_path root (sha256hex bytes) VARIANT_ORIGINAL
                (normalize_ext suffix)) bytes)
          (get_storage_path root (sha256hex bytes) VARIANT_ORIGINAL (normalize_ext suffix))
          (sha256hex bytes))
        (get_storage_path root (sha256hex bytes) VARIANT_ORIGINAL
          (normalize_ext suffix))).1 = some 0
    rw [hdim]
  · show some (get_image_dimensions ops
        (generate_thumbnails_sync ops root
          (((fs.write (temp_path root tok (normalize_ext suffix)) bytes).unlink
            (temp_path root tok (normalize_ext suffix))).write
              (get_storage_path root (sha256hex bytes) VARIANT_ORIGINAL
                (normalize_ext suffix)) bytes)
          (get_storage_path root (sha256hex bytes) VARIANT_ORIGINAL (normalize_ext suffix))
          (sha256hex bytes))
        (get_storage_path root (sha256hex bytes) VARIANT_ORIGINAL
          (normalize_ext suffix))).2 = some 0
    rw [hdim]

/-- Witness for C8 on an unrecognized `.xyz` extension with undecodable
content. -/
theorem ingest_unrecognized_type_witness :
    ∃ r fs2, store_file_streaming opsNone ("r") ("t") none [1] (".xyz") FS.empty
        = .ok (r, fs2) ∧
      r.mime_type = ("application/octet-stream") ∧
      r.width = some 0 ∧ r.height = some 0 :=
  ingest_unrecognized_type opsNone ("r") ("t") (".xyz") [1] FS.empty
    (by rfl) (by rfl) (by rfl) (by rfl)

end ClientPix
